import Mathlib

/-!
Verification of the relay engine in src/backend.py (Phone Automation
Controller backend).  The definitions below are a shallow embedding of the
Python source: the action registry WEBHOOK_CONFIG, the shared statistics
record system_state, the serialized update function update_state, and the
core dispatch function trigger_webhook.  The outbound HTTP call is modelled
by an explicit outcome parameter (the four possible behaviours of the
network: a response with some status code, a timeout, a connection error,
or any other exception), and the single request that trigger_webhook
issues is returned explicitly so that properties about the outbound
boundary can be stated.
-/

set_option linter.unusedVariables false

/-- One entry of the action registry: a target URL and a human-readable
description (src/backend.py WEBHOOK_CONFIG values). -/
structure ActionConfig where
  url : String
  description : String
deriving Repr, DecidableEq

/-- The action registry, src/backend.py lines 39-60, as an association
list keyed by the action key, in registration order. -/
def WEBHOOK_CONFIG : List (String × ActionConfig) :=
  [ ("lock_screen",
      { url := "https://trigger.macrodroid.com/44152ed5-575d-4f82-97b1-8ce1f4e9bde5/lock",
        description := "Lock the phone screen immediately" }),
    ("block_touch",
      { url := "https://trigger.macrodroid.com/44152ed5-575d-4f82-97b1-8ce1f4e9bde5/block",
        description := "Block touch/UI interaction for 10 seconds" }),
    ("open_site1",
      { url := "https://trigger.macrodroid.com/44152ed5-575d-4f82-97b1-8ce1f4e9bde5/site1",
        description := "Open Site 1 (e.g., YouTube)" }),
    ("open_site2",
      { url := "https://trigger.macrodroid.com/44152ed5-575d-4f82-97b1-8ce1f4e9bde5/site2",
        description := "Open Site 2 (e.g., Twitter)" }),
    ("open_site3",
      { url := "https://trigger.macrodroid.com/44152ed5-575d-4f82-97b1-8ce1f4e9bde5/site3",
        description := "Open Site 3 (e.g., Gmail)" }) ]

/-- Dictionary lookup, modelling the Python membership test
`webhook_key not in WEBHOOK_CONFIG` and the access `WEBHOOK_CONFIG[webhook_key]`. -/
def lookupConfig (key : String) : Option ActionConfig :=
  (WEBHOOK_CONFIG.find? (fun p => p.1 == key)).map Prod.snd

/-- Timeout for webhook HTTP requests in seconds, src/backend.py line 63. -/
def WEBHOOK_TIMEOUT : Nat := 10

/-- The shared statistics record system_state, src/backend.py lines 70-78.
Timestamps are abstract strings (datetime.now().isoformat() in the source). -/
structure SystemState where
  last_action : Option String
  last_action_time : Option String
  last_action_status : Option String
  total_requests : Nat
  successful_requests : Nat
  failed_requests : Nat
  backend_start_time : String
deriving Repr, DecidableEq

/-- The initial value of system_state (all counters zero, no last action),
parameterised by the process start timestamp. -/
def initState (startTime : String) : SystemState :=
  { last_action := none,
    last_action_time := none,
    last_action_status := none,
    total_requests := 0,
    successful_requests := 0,
    failed_requests := 0,
    backend_start_time := startTime }

/-- update_state, src/backend.py lines 80-98.  The message argument is
accepted but unused by the source body; the current time is passed
explicitly in place of datetime.now(). -/
def update_state (action_name : String) (status : String) (message : Option String)
    (now : String) (st : SystemState) : SystemState :=
  { st with
    last_action := some action_name,
    last_action_time := some now,
    last_action_status := some status,
    total_requests := st.total_requests + 1,
    successful_requests :=
      if status == "success" then st.successful_requests + 1 else st.successful_requests,
    failed_requests :=
      if status == "success" then st.failed_requests else st.failed_requests + 1 }

/-- A JSON object body, abstracted as an association list of fields. -/
abbrev Payload := List (String × String)

/-- The behaviour of the single outbound HTTP POST: either a response with
a status code arrives, or the requests library raises Timeout,
ConnectionError, or some other exception carrying an error text. -/
inductive HttpOutcome where
  | response (status_code : Nat)
  | timeout
  | connectionError
  | otherError (errText : String)
deriving Repr, DecidableEq

/-- One outbound HTTP POST request as issued by requests.post at
src/backend.py lines 136-141. -/
structure HttpRequest where
  url : String
  body : Payload
  contentType : String
  timeoutSeconds : Nat
deriving Repr, DecidableEq

/-- The result dict returned by trigger_webhook: success flag, action key,
message, optional HTTP status code, and timestamp. -/
structure RelayResult where
  success : Bool
  action : String
  message : String
  status_code : Option Nat
  timestamp : String
deriving Repr, DecidableEq

/-- Everything one call of trigger_webhook produces: the returned result
dict, the statistics record after the call, and the list of outbound HTTP
requests actually issued during the call. -/
structure DispatchOutput where
  result : RelayResult
  state : SystemState
  requests : List HttpRequest
deriving Repr, DecidableEq

/-- The JSON body sent: `payload if payload else le-empty-dict` at
src/backend.py line 138 (Python truthiness: None and the empty dict both
become the empty object). -/
def requestBody (payload : Option Payload) : Payload :=
  match payload with
  | some p => if p = [] then [] else p
  | none => []

/-- trigger_webhook, src/backend.py lines 102-198.  The outbound network
behaviour is the explicit parameter outcome; now stands for
datetime.now().isoformat() at the return point. -/
def trigger_webhook (webhook_key : String) (payload : Option Payload)
    (outcome : HttpOutcome) (now : String) (st : SystemState) : DispatchOutput :=
  match lookupConfig webhook_key with
  | none =>
      { result :=
          { success := false,
            action := webhook_key,
            message := "Unknown action: " ++ webhook_key,
            status_code := none,
            timestamp := now },
        state := st,
        requests := [] }
  | some webhook_info =>
      let req : HttpRequest :=
        { url := webhook_info.url,
          body := requestBody payload,
          contentType := "application/json",
          timeoutSeconds := WEBHOOK_TIMEOUT }
      match outcome with
      | .response s =>
          if 200 ≤ s ∧ s < 300 then
            { result :=
                { success := true,
                  action := webhook_key,
                  message := webhook_info.description ++ " - Command sent successfully",
                  status_code := some s,
                  timestamp := now },
              state := update_state webhook_key "success" none now st,
              requests := [req] }
          else
            { result :=
                { success := false,
                  action := webhook_key,
                  message := "Webhook returned HTTP " ++ toString s,
                  status_code := some s,
                  timestamp := now },
              state := update_state webhook_key "error" (some ("HTTP " ++ toString s)) now st,
              requests := [req] }
      | .timeout =>
          { result :=
              { success := false,
                action := webhook_key,
                message := "Request timed out. Phone may be unreachable.",
                status_code := none,
                timestamp := now },
            state := update_state webhook_key "error" (some "Timeout") now st,
            requests := [req] }
      | .connectionError =>
          { result :=
              { success := false,
                action := webhook_key,
                message := "Cannot connect to phone. Check internet connection.",
                status_code := none,
                timestamp := now },
            state := update_state webhook_key "error" (some "Connection error") now st,
            requests := [req] }
      | .otherError e =>
          { result :=
              { success := false,
                action := webhook_key,
                message := "Unexpected error: " ++ e,
                status_code := none,
                timestamp := now },
            state := update_state webhook_key "error" (some e) now st,
            requests := [req] }

/-- One dispatch invocation: key, optional payload, network outcome, and
the timestamp observed during the call. -/
structure DispatchCall where
  key : String
  payload : Option Payload
  outcome : HttpOutcome
  now : String
deriving Repr, DecidableEq

/-- Run a sequence of dispatch calls, threading the statistics record
through the calls in order. -/
def runDispatches (calls : List DispatchCall) (st : SystemState) : SystemState :=
  calls.foldl (fun s c => (trigger_webhook c.key c.payload c.outcome c.now s).state) st

/-- The statistics invariant of spec section 3. -/
def statsInv (st : SystemState) : Prop :=
  st.total_requests = st.successful_requests + st.failed_requests

theorem update_state_statsInv (a status : String) (m : Option String) (now : String)
    (st : SystemState) (h : statsInv st) :
    statsInv (update_state a status m now st) := by
  unfold statsInv update_state at *
  by_cases hs : status == "success" <;> simp [hs] <;> omega

theorem trigger_webhook_statsInv (k : String) (p : Option Payload) (oc : HttpOutcome)
    (now : String) (st : SystemState) (h : statsInv st) :
    statsInv (trigger_webhook k p oc now st).state := by
  unfold trigger_webhook
  cases hcfg : lookupConfig k with
  | none => simpa using h
  | some info =>
      cases oc with
      | response s =>
          by_cases h2 : 200 ≤ s ∧ s < 300
          · simp only [if_pos h2]
            exact update_state_statsInv k "success" none now st h
          · simp only [if_neg h2]
            exact update_state_statsInv k "error" (some ("HTTP " ++ toString s)) now st h
      | timeout => exact update_state_statsInv k "error" (some "Timeout") now st h
      | connectionError =>
          exact update_state_statsInv k "error" (some "Connection error") now st h
      | otherError e => exact update_state_statsInv k "error" (some e) now st h

theorem runDispatches_statsInv (calls : List DispatchCall) (st : SystemState)
    (h : statsInv st) : statsInv (runDispatches calls st) := by
  induction calls generalizing st with
  | nil => simpa [runDispatches] using h
  | cons c cs ih =>
      simpa [runDispatches] using
        ih _ (trigger_webhook_statsInv c.key c.payload c.outcome c.now st h)

/-- C1: starting from the initial statistics record (all three counters
zero), after any sequence of dispatch calls completes,
total_requests equals successful_requests plus failed_requests. -/
theorem C1_stats_invariant (calls : List DispatchCall) (startTime : String) :
    (runDispatches calls (initState startTime)).total_requests =
      (runDispatches calls (initState startTime)).successful_requests +
        (runDispatches calls (initState startTime)).failed_requests := by
  have h0 : statsInv (initState startTime) := by simp [statsInv, initState]
  exact runDispatches_statsInv calls (initState startTime) h0

/-- C2: for every known action key and every HTTP response with a 2xx
status, dispatch returns success=true with the message
"<description> - Command sent successfully", status_code equal to the
received status, and the statistics record a success: total_requests and
successful_requests each grow by one while failed_requests is unchanged. -/
theorem C2_http_2xx_success (k : String) (info : ActionConfig) (p : Option Payload)
    (s : Nat) (now : String) (st : SystemState)
    (hk : lookupConfig k = some info) (h200 : 200 ≤ s) (h300 : s < 300) :
    (trigger_webhook k p (.response s) now st).result =
      { success := true,
        action := k,
        message := info.description ++ " - Command sent successfully",
        status_code := some s,
        timestamp := now } ∧
    (trigger_webhook k p (.response s) now st).state.total_requests =
      st.total_requests + 1 ∧
    (trigger_webhook k p (.response s) now st).state.successful_requests =
      st.successful_requests + 1 ∧
    (trigger_webhook k p (.response s) now st).state.failed_requests =
      st.failed_requests := by
  simp [trigger_webhook, hk, h200, h300, update_state]

theorem C2_witness :
    lookupConfig "lock_screen" =
      some { url := "https://trigger.macrodroid.com/44152ed5-575d-4f82-97b1-8ce1f4e9bde5/lock",
             description := "Lock the phone screen immediately" } ∧
    200 ≤ 200 ∧ 200 < 300 ∧
    ((trigger_webhook "lock_screen" none (.response 200) "t1" (initState "t0")).result =
      { success := true,
        action := "lock_screen",
        message := "Lock the phone screen immediately - Command sent successfully",
        status_code := some 200,
        timestamp := "t1" } ∧
     (trigger_webhook "lock_screen" none (.response 200) "t1" (initState "t0")).state.total_requests =
       (initState "t0").total_requests + 1 ∧
     (trigger_webhook "lock_screen" none (.response 200) "t1" (initState "t0")).state.successful_requests =
       (initState "t0").successful_requests + 1 ∧
     (trigger_webhook "lock_screen" none (.response 200) "t1" (initState "t0")).state.failed_requests =
       (initState "t0").failed_requests) :=
  ⟨by decide, by decide, by decide,
   C2_http_2xx_success "lock_screen"
     { url := "https://trigger.macrodroid.com/44152ed5-575d-4f82-97b1-8ce1f4e9bde5/lock",
       description := "Lock the phone screen immediately" }
     none 200 "t1" (initState "t0") (by decide) (by decide) (by decide)⟩

/-- C3: for every known action key and every HTTP response with a status
outside the 2xx range, dispatch returns success=false with message
"Webhook returned HTTP <status>", status_code equal to the received
status, and the statistics record an error: total_requests and
failed_requests each grow by one while successful_requests is unchanged. -/
theorem C3_http_non2xx_failure (k : String) (info : ActionConfig) (p : Option Payload)
    (s : Nat) (now : String) (st : SystemState)
    (hk : lookupConfig k = some info) (hout : ¬ (200 ≤ s ∧ s < 300)) :
    (trigger_webhook k p (.response s) now st).result =
      { success := false,
        action := k,
        message := "Webhook returned HTTP " ++ toString s,
        status_code := some s,
        timestamp := now } ∧
    (trigger_webhook k p (.response s) now st).state.total_requests =
      st.total_requests + 1 ∧
    (trigger_webhook k p (.response s) now st).state.failed_requests =
      st.failed_requests + 1 ∧
    (trigger_webhook k p (.response s) now st).state.successful_requests =
      st.successful_requests := by
  simp [trigger_webhook, hk, hout, update_state]

theorem C3_witness :
    lookupConfig "open_site1" =
      some { url := "https://trigger.macrodroid.com/44152ed5-575d-4f82-97b1-8ce1f4e9bde5/site1",
             description := "Open Site 1 (e.g., YouTube)" } ∧
    ¬ (200 ≤ 500 ∧ 500 < 300) ∧
    ((trigger_webhook "open_site1" none (.response 500) "t1" (initState "t0")).result =
      { success := false,
        action := "open_site1",
        message := "Webhook returned HTTP 500",
        status_code := some 500,
        timestamp := "t1" } ∧
     (trigger_webhook "open_site1" none (.response 500) "t1" (initState "t0")).state.total_requests =
       (initState "t0").total_requests + 1 ∧
     (trigger_webhook "open_site1" none (.response 500) "t1" (initState "t0")).state.failed_requests =
       (initState "t0").failed_requests + 1 ∧
     (trigger_webhook "open_site1" none (.response 500) "t1" (initState "t0")).state.successful_requests =
       (initState "t0").successful_requests) :=
  ⟨by decide, by decide,
   C3_http_non2xx_failure "open_site1"
     { url := "https://trigger.macrodroid.com/44152ed5-575d-4f82-97b1-8ce1f4e9bde5/site1",
       description := "Open Site 1 (e.g., YouTube)" }
     none 500 "t1" (initState "t0") (by decide) (by decide)⟩

/-- C4: for every key not present in the action registry and every payload
and network behaviour, dispatch returns success=false with message
"Unknown action: <key>", issues no outbound HTTP request, and leaves the
whole statistics record exactly as it was. -/
theorem C4_unknown_key (k : String) (p : Option Payload) (oc : HttpOutcome)
    (now : String) (st : SystemState) (hk : lookupConfig k = none) :
    (trigger_webhook k p oc now st).result.success = false ∧
    (trigger_webhook k p oc now st).result.message = "Unknown action: " ++ k ∧
    (trigger_webhook k p oc now st).requests = [] ∧
    (trigger_webhook k p oc now st).state = st := by
  simp [trigger_webhook, hk]

theorem C4_witness :
    lookupConfig "nonexistent_key" = none ∧
    ((trigger_webhook "nonexistent_key" none .timeout "t1" (initState "t0")).result.success = false ∧
     (trigger_webhook "nonexistent_key" none .timeout "t1" (initState "t0")).result.message =
       "Unknown action: " ++ "nonexistent_key" ∧
     (trigger_webhook "nonexistent_key" none .timeout "t1" (initState "t0")).requests = [] ∧
     (trigger_webhook "nonexistent_key" none .timeout "t1" (initState "t0")).state =
       initState "t0") :=
  ⟨by decide,
   C4_unknown_key "nonexistent_key" none .timeout "t1" (initState "t0") (by decide)⟩

/-- C5: for every known action key, a timeout yields success=false with
the message "Request timed out. Phone may be unreachable." and a
connection failure yields success=false with the message
"Cannot connect to phone. Check internet connection."; in both cases an
error is recorded: total_requests and failed_requests each grow by one
(and successful_requests is unchanged). -/
theorem C5_timeout_and_connection (k : String) (info : ActionConfig)
    (p : Option Payload) (now : String) (st : SystemState)
    (hk : lookupConfig k = some info) :
    ((trigger_webhook k p .timeout now st).result.success = false ∧
     (trigger_webhook k p .timeout now st).result.message =
       "Request timed out. Phone may be unreachable." ∧
     (trigger_webhook k p .timeout now st).state.total_requests = st.total_requests + 1 ∧
     (trigger_webhook k p .timeout now st).state.failed_requests = st.failed_requests + 1 ∧
     (trigger_webhook k p .timeout now st).state.successful_requests =
       st.successful_requests) ∧
    ((trigger_webhook k p .connectionError now st).result.success = false ∧
     (trigger_webhook k p .connectionError now st).result.message =
       "Cannot connect to phone. Check internet connection." ∧
     (trigger_webhook k p .connectionError now st).state.total_requests =
       st.total_requests + 1 ∧
     (trigger_webhook k p .connectionError now st).state.failed_requests =
       st.failed_requests + 1 ∧
     (trigger_webhook k p .connectionError now st).state.successful_requests =
       st.successful_requests) := by
  refine ⟨⟨?_, ?_, ?_, ?_, ?_⟩, ⟨?_, ?_, ?_, ?_, ?_⟩⟩ <;>
    simp [trigger_webhook, hk, update_state]

theorem C5_witness :
    lookupConfig "block_touch" =
      some { url := "https://trigger.macrodroid.com/44152ed5-575d-4f82-97b1-8ce1f4e9bde5/block",
             description := "Block touch/UI interaction for 10 seconds" } ∧
    (((trigger_webhook "block_touch" none .timeout "t1" (initState "t0")).result.success = false ∧
      (trigger_webhook "block_touch" none .timeout "t1" (initState "t0")).result.message =
        "Request timed out. Phone may be unreachable." ∧
      (trigger_webhook "block_touch" none .timeout "t1" (initState "t0")).state.total_requests =
        (initState "t0").total_requests + 1 ∧
      (trigger_webhook "block_touch" none .timeout "t1" (initState "t0")).state.failed_requests =
        (initState "t0").failed_requests + 1 ∧
      (trigger_webhook "block_touch" none .timeout "t1" (initState "t0")).state.successful_requests =
        (initState "t0").successful_requests) ∧
     ((trigger_webhook "block_touch" none .connectionError "t1" (initState "t0")).result.success = false ∧
      (trigger_webhook "block_touch" none .connectionError "t1" (initState "t0")).result.message =
        "Cannot connect to phone. Check internet connection." ∧
      (trigger_webhook "block_touch" none .connectionError "t1" (initState "t0")).state.total_requests =
        (initState "t0").total_requests + 1 ∧
      (trigger_webhook "block_touch" none .connectionError "t1" (initState "t0")).state.failed_requests =
        (initState "t0").failed_requests + 1 ∧
      (trigger_webhook "block_touch" none .connectionError "t1" (initState "t0")).state.successful_requests =
        (initState "t0").successful_requests)) :=
  ⟨by decide,
   C5_timeout_and_connection "block_touch"
     { url := "https://trigger.macrodroid.com/44152ed5-575d-4f82-97b1-8ce1f4e9bde5/block",
       description := "Block touch/UI interaction for 10 seconds" }
     none "t1" (initState "t0") (by decide)⟩

/-- C6: one statistics update increments total_requests by exactly one,
increments exactly one of successful_requests / failed_requests
(successful_requests when the status is the string success, otherwise
failed_requests), overwrites last_action, last_action_time and
last_action_status, and leaves backend_start_time unchanged. -/
theorem C6_update_state_shape (a status : String) (m : Option String)
    (now : String) (st : SystemState) :
    (update_state a status m now st).total_requests = st.total_requests + 1 ∧
    ((status = "success" ∧
        (update_state a status m now st).successful_requests =
          st.successful_requests + 1 ∧
        (update_state a status m now st).failed_requests = st.failed_requests) ∨
     (status ≠ "success" ∧
        (update_state a status m now st).successful_requests =
          st.successful_requests ∧
        (update_state a status m now st).failed_requests = st.failed_requests + 1)) ∧
    (update_state a status m now st).last_action = some a ∧
    (update_state a status m now st).last_action_time = some now ∧
    (update_state a status m now st).last_action_status = some status ∧
    (update_state a status m now st).backend_start_time = st.backend_start_time := by
  by_cases hs : status = "success"
  · refine ⟨by simp [update_state], Or.inl ⟨hs, ?_, ?_⟩, by simp [update_state],
      by simp [update_state], by simp [update_state], by simp [update_state]⟩ <;>
      simp [update_state, hs]
  · refine ⟨by simp [update_state], Or.inr ⟨hs, ?_, ?_⟩, by simp [update_state],
      by simp [update_state], by simp [update_state], by simp [update_state]⟩ <;>
      simp [update_state, hs]

/-- C7: dispatch is a total function (every key, payload and outbound
outcome yields a RelayResult, never a propagated exception); in the
unexpected-failure branch the result has success=false, its message
contains the underlying error text, and an error is recorded in the
statistics (total_requests and failed_requests each grow by one). -/
theorem C7_no_exception_escape (k : String) (info : ActionConfig)
    (p : Option Payload) (e : String) (now : String) (st : SystemState)
    (hk : lookupConfig k = some info) :
    (∀ oc : HttpOutcome, ∃ r : RelayResult,
       (trigger_webhook k p oc now st).result = r) ∧
    (trigger_webhook k p (.otherError e) now st).result.success = false ∧
    (∃ a b, (trigger_webhook k p (.otherError e) now st).result.message =
       a ++ e ++ b) ∧
    (trigger_webhook k p (.otherError e) now st).state.total_requests =
      st.total_requests + 1 ∧
    (trigger_webhook k p (.otherError e) now st).state.failed_requests =
      st.failed_requests + 1 ∧
    (trigger_webhook k p (.otherError e) now st).state.successful_requests =
      st.successful_requests := by
  refine ⟨fun oc => ⟨(trigger_webhook k p oc now st).result, rfl⟩, ?_,
    ⟨"Unexpected error: ", "", ?_⟩, ?_, ?_, ?_⟩ <;>
    simp [trigger_webhook, hk, update_state]

theorem C7_witness :
    lookupConfig "open_site2" =
      some { url := "https://trigger.macrodroid.com/44152ed5-575d-4f82-97b1-8ce1f4e9bde5/site2",
             description := "Open Site 2 (e.g., Twitter)" } ∧
    ((∀ oc : HttpOutcome, ∃ r : RelayResult,
        (trigger_webhook "open_site2" none oc "t1" (initState "t0")).result = r) ∧
     (trigger_webhook "open_site2" none (.otherError "boom") "t1" (initState "t0")).result.success = false ∧
     (∃ a b, (trigger_webhook "open_site2" none (.otherError "boom") "t1" (initState "t0")).result.message =
        a ++ "boom" ++ b) ∧
     (trigger_webhook "open_site2" none (.otherError "boom") "t1" (initState "t0")).state.total_requests =
       (initState "t0").total_requests + 1 ∧
     (trigger_webhook "open_site2" none (.otherError "boom") "t1" (initState "t0")).state.failed_requests =
       (initState "t0").failed_requests + 1 ∧
     (trigger_webhook "open_site2" none (.otherError "boom") "t1" (initState "t0")).state.successful_requests =
       (initState "t0").successful_requests) :=
  ⟨by decide,
   C7_no_exception_escape "open_site2"
     { url := "https://trigger.macrodroid.com/44152ed5-575d-4f82-97b1-8ce1f4e9bde5/site2",
       description := "Open Site 2 (e.g., Twitter)" }
     none "boom" "t1" (initState "t0") (by decide)⟩

/-- C8: for every known action key and every network behaviour, dispatch
issues exactly one outbound HTTP POST, to the URL registered for the key,
with body the provided payload mapping (or the empty object when none is
provided), header Content-Type set to application/json, and the 10-second
timeout; the singleton request list shows that no retry is performed. -/
theorem C8_single_post (k : String) (info : ActionConfig) (p : Option Payload)
    (oc : HttpOutcome) (now : String) (st : SystemState)
    (hk : lookupConfig k = some info) :
    (trigger_webhook k p oc now st).requests =
      [ { url := info.url,
          body := requestBody p,
          contentType := "application/json",
          timeoutSeconds := WEBHOOK_TIMEOUT } ] ∧
    WEBHOOK_TIMEOUT = 10 ∧
    (∀ q : Payload, requestBody (some q) = q) ∧
    requestBody none = [] := by
  refine ⟨?_, rfl, fun q => ?_, rfl⟩
  · cases oc with
    | response s =>
        by_cases h2 : 200 ≤ s ∧ s < 300 <;> simp [trigger_webhook, hk, h2]
    | timeout => simp [trigger_webhook, hk]
    | connectionError => simp [trigger_webhook, hk]
    | otherError e => simp [trigger_webhook, hk]
  · by_cases hq : q = [] <;> simp [requestBody, hq]

theorem C8_witness :
    lookupConfig "open_site3" =
      some { url := "https://trigger.macrodroid.com/44152ed5-575d-4f82-97b1-8ce1f4e9bde5/site3",
             description := "Open Site 3 (e.g., Gmail)" } ∧
    ((trigger_webhook "open_site3" (some [("url", "https://gmail.com")])
        (.response 204) "t1" (initState "t0")).requests =
      [ { url := "https://trigger.macrodroid.com/44152ed5-575d-4f82-97b1-8ce1f4e9bde5/site3",
          body := requestBody (some [("url", "https://gmail.com")]),
          contentType := "application/json",
          timeoutSeconds := WEBHOOK_TIMEOUT } ] ∧
     WEBHOOK_TIMEOUT = 10 ∧
     (∀ q : Payload, requestBody (some q) = q) ∧
     requestBody none = []) :=
  ⟨by decide,
   C8_single_post "open_site3"
     { url := "https://trigger.macrodroid.com/44152ed5-575d-4f82-97b1-8ce1f4e9bde5/site3",
       description := "Open Site 3 (e.g., Gmail)" }
     (some [("url", "https://gmail.com")]) (.response 204) "t1" (initState "t0")
     (by decide)⟩

/-- C9: for every input key (known or unknown), payload and network
behaviour, the result returned by dispatch carries the input key in its
action field. -/
theorem C9_action_field (k : String) (p : Option Payload) (oc : HttpOutcome)
    (now : String) (st : SystemState) :
    (trigger_webhook k p oc now st).result.action = k := by
  unfold trigger_webhook
  cases lookupConfig k with
  | none => rfl
  | some info =>
      cases oc with
      | response s => by_cases h2 : 200 ≤ s ∧ s < 300 <;> simp [h2]
      | timeout => rfl
      | connectionError => rfl
      | otherError e => rfl

/-- C10: the status_code field of the result is populated exactly when an
HTTP response was actually received, that is when the key is known and the
network behaviour is a response, and it then holds that response status;
for the unknown-key, timeout, connection-failure and unexpected-failure
outcomes it is absent. -/
theorem C10_status_code_presence (k : String) (p : Option Payload)
    (oc : HttpOutcome) (now : String) (st : SystemState) :
    (trigger_webhook k p oc now st).result.status_code =
      (match lookupConfig k, oc with
       | some _, HttpOutcome.response s => some s
       | _, _ => none) := by
  unfold trigger_webhook
  cases lookupConfig k with
  | none => cases oc <;> rfl
  | some info =>
      cases oc with
      | response s => by_cases h2 : 200 ≤ s ∧ s < 300 <;> simp [h2]
      | timeout => rfl
      | connectionError => rfl
      | otherError e => rfl
